import Mathlib

/-!
Verification of the alert-check core of check_hpe_oneview_alerts
(src/src/hpe_oneview.rs): a shallow embedding of the classification logic
of check_alerts, of login, logout and get_alerts, and theorems about the
verdicts and traces they produce.
-/

namespace HpeOneview

instance {α β : Type} [DecidableEq α] [DecidableEq β] : DecidableEq (Except α β) :=
  fun a b =>
  match a, b with
  | .error x, .error y => if h : x = y then .isTrue (by simp [h]) else .isFalse (by simp [h])
  | .ok x, .ok y => if h : x = y then .isTrue (by simp [h]) else .isFalse (by simp [h])
  | .error _, .ok _ => .isFalse (by simp)
  | .ok _, .error _ => .isFalse (by simp)

/-- Rust str::to_lowercase as used on severity strings (hpe_oneview.rs
line 39): lowercase every character. Char.toLower handles the ASCII
range, which covers every severity literal compared against. -/
def lowercase (s : String) : String :=
  ⟨s.data.map Char.toLower⟩

/-- Nagios-style status values. Modelled from the spec: the nagios module
declaring the constants OK, WARNING, CRITICAL, UNKNOWN used by
hpe_oneview.rs is not part of src; the spec lists exactly these four
status values for a Verdict. -/
inductive Status where
  | OK
  | WARNING
  | CRITICAL
  | UNKNOWN
  deriving DecidableEq, Repr

/-- The verdict record. Modelled from the spec: the nagios module declaring
NagiosState is not part of src; hpe_oneview.rs constructs it with the two
fields status and message. -/
structure NagiosState where
  status : Status
  message : String
  deriving DecidableEq, Repr

/-- One alert. Modelled from the spec: the json module declaring the alert
schema is not part of src; hpe_oneview.rs reads only the severity field. -/
structure Alert where
  severity : String
  deriving DecidableEq, Repr

/-- The alert collection. Modelled from the spec: the json module declaring
AlertResourceCollection is not part of src; hpe_oneview.rs reads the count
field (a u64, embedded as Nat) and the members sequence. -/
structure AlertResourceCollection where
  count : Nat
  members : List Alert
  deriving DecidableEq, Repr

/-- The counting loop of check_alerts (hpe_oneview.rs lines 38-47): fold
over the members, bucketing each alert by its lowercased severity into
(ok_count, warn_count, critical_count), failing on an unknown severity with
the bail message of line 44. The source's match on string literals is the
same chain of equality tests. -/
def countSeverities : List Alert → Nat × Nat × Nat → Except String (Nat × Nat × Nat)
  | [], acc => .ok acc
  | alert :: rest, (ok_count, warn_count, critical_count) =>
    if lowercase alert.severity = "ok" then
      countSeverities rest (ok_count + 1, warn_count, critical_count)
    else if lowercase alert.severity = "warning" then
      countSeverities rest (ok_count, warn_count + 1, critical_count)
    else if lowercase alert.severity = "critical" then
      countSeverities rest (ok_count, warn_count, critical_count + 1)
    else
      .error ("BUG: Unknown alert severity " ++ alert.severity)

/-- The classification fragment of check_alerts (hpe_oneview.rs lines
24-65), taking the already fetched collection as input: the count == 0
short circuit of lines 30-35, then the counting loop, the status selection
of lines 49-55 and the message assembly of lines 57-65. -/
def classify (alerts : AlertResourceCollection) : Except String NagiosState :=
  if alerts.count = 0 then
    .ok ⟨Status.OK, "No uncleared alerts found"⟩
  else
    match countSeverities alerts.members (0, 0, 0) with
    | .error e => .error e
    | .ok (ok_count, warn_count, critical_count) =>
      let status :=
        if critical_count > 0 then Status.CRITICAL
        else if warn_count > 0 then Status.WARNING
        else Status.OK
      let msg_list : List String :=
        (if critical_count > 0 then
          [toString critical_count ++ " critical alerts found"] else [])
        ++ (if warn_count > 0 then
          [toString warn_count ++ " warning alerts found"] else [])
        ++ [toString ok_count ++ " harmless alerts found"]
      .ok ⟨status, String.intercalate ", " msg_list⟩

/-- An HTTP response as seen by this code: numeric status, header list,
body text. A transport-level failure of send is an Except.error wrapping
the response elsewhere. -/
structure HttpResponse where
  status : Nat
  headers : List (String × String)
  body : String

/-- Header lookup; HeaderMap::get of the http crate is case-insensitive in
the header name. -/
def headerGet (headers : List (String × String)) (name : String) : Option String :=
  (headers.find? (fun p => lowercase p.1 = lowercase name)).map (fun p => p.2)

/-- login (hpe_oneview.rs lines 75-100): given the outcome of sending the
login request, succeed with the sessionID header value, or fail with the
bail message of line 96 when the header is absent. The HTTP status of the
response is never consulted. -/
def login (resp : Except String HttpResponse) : Except String String :=
  match resp with
  | .error e => .error e
  | .ok r =>
    match headerGet r.headers "sessionID" with
    | some v => .ok v
    | none => .error "Login to HPE OneView failed"

/-- logout (hpe_oneview.rs lines 102-118): given the outcome of sending the
delete request, propagate a transport failure, otherwise return unit. -/
def logout (resp : Except String HttpResponse) : Except String Unit :=
  match resp with
  | .error e => .error e
  | .ok _ => .ok ()

/-- StatusCode::canonical_reason of the http crate (an external
dependency), for the common status codes: the standard reason phrase, or
none for a code outside the IANA registry. -/
def canonical_reason (status : Nat) : Option String :=
  if status = 100 then some "Continue"
  else if status = 101 then some "Switching Protocols"
  else if status = 200 then some "OK"
  else if status = 201 then some "Created"
  else if status = 202 then some "Accepted"
  else if status = 204 then some "No Content"
  else if status = 206 then some "Partial Content"
  else if status = 301 then some "Moved Permanently"
  else if status = 302 then some "Found"
  else if status = 303 then some "See Other"
  else if status = 304 then some "Not Modified"
  else if status = 307 then some "Temporary Redirect"
  else if status = 308 then some "Permanent Redirect"
  else if status = 400 then some "Bad Request"
  else if status = 401 then some "Unauthorized"
  else if status = 403 then some "Forbidden"
  else if status = 404 then some "Not Found"
  else if status = 405 then some "Method Not Allowed"
  else if status = 406 then some "Not Acceptable"
  else if status = 408 then some "Request Timeout"
  else if status = 409 then some "Conflict"
  else if status = 410 then some "Gone"
  else if status = 429 then some "Too Many Requests"
  else if status = 500 then some "Internal Server Error"
  else if status = 501 then some "Not Implemented"
  else if status = 502 then some "Bad Gateway"
  else if status = 503 then some "Service Unavailable"
  else if status = 504 then some "Gateway Timeout"
  else none

/-- get_alerts (hpe_oneview.rs lines 120-149): given the outcome of sending
the alerts query, fail unless the status equals StatusCode::OK (200) with
the canonical reason of the status or the literal fallback of line 142,
else parse the body. serde_json::from_str is an external dependency and is
passed in as the parse function. -/
def get_alerts (parse : String → Except String AlertResourceCollection)
    (resp : Except String HttpResponse) : Except String AlertResourceCollection :=
  match resp with
  | .error e => .error e
  | .ok r =>
    if r.status ≠ 200 then
      .error ((canonical_reason r.status).getD "unknown HTTP status")
    else
      parse r.body

/-- The three network calls check_alerts can issue after building the
client, in the order they appear in the source. -/
inductive Action where
  | loginCall
  | getAlertsCall
  | logoutCall
  deriving DecidableEq, Repr

/-- One run's environment: the outcome each network send would have, and
the external JSON parse function. -/
structure Env where
  loginResp : Except String HttpResponse
  alertsResp : Except String HttpResponse
  logoutResp : Except String HttpResponse
  parse : String → Except String AlertResourceCollection

/-- Replace the logout outcome of an environment. -/
def setLogoutResp (env : Env) (r : Except String HttpResponse) : Env :=
  ⟨env.loginResp, env.alertsResp, r, env.parse⟩

/-- check_alerts (hpe_oneview.rs lines 10-73) after client construction:
login, fetch, short circuit on count == 0 (lines 30-35, returning before
the logout of line 70), count severities, select status, assemble message,
attempt logout discarding its result, return the verdict. Alongside the
result it records the trace of network calls issued, in order. -/
def check_alerts (env : Env) : Except String NagiosState × List Action :=
  match login env.loginResp with
  | .error e => (.error e, [Action.loginCall])
  | .ok _token =>
    match get_alerts env.parse env.alertsResp with
    | .error e => (.error e, [Action.loginCall, Action.getAlertsCall])
    | .ok alerts =>
      if alerts.count = 0 then
        (.ok ⟨Status.OK, "No uncleared alerts found"⟩,
          [Action.loginCall, Action.getAlertsCall])
      else
        match countSeverities alerts.members (0, 0, 0) with
        | .error e => (.error e, [Action.loginCall, Action.getAlertsCall])
        | .ok (ok_count, warn_count, critical_count) =>
          let status :=
            if critical_count > 0 then Status.CRITICAL
            else if warn_count > 0 then Status.WARNING
            else Status.OK
          let msg_list : List String :=
            (if critical_count > 0 then
              [toString critical_count ++ " critical alerts found"] else [])
            ++ (if warn_count > 0 then
              [toString warn_count ++ " warning alerts found"] else [])
            ++ [toString ok_count ++ " harmless alerts found"]
          let _ := logout env.logoutResp
          (.ok ⟨status, String.intercalate ", " msg_list⟩,
            [Action.loginCall, Action.getAlertsCall, Action.logoutCall])

/-- Whether an alert's lowercased severity lies in the closed set the
counting loop accepts. -/
def knownSeverity (a : Alert) : Bool :=
  lowercase a.severity == "ok" || lowercase a.severity == "warning"
    || lowercase a.severity == "critical"

/-- Number of members whose lowercased severity is ok. -/
def okCnt (l : List Alert) : Nat :=
  (l.filter (fun a => lowercase a.severity == "ok")).length

/-- Number of members whose lowercased severity is warning. -/
def warnCnt (l : List Alert) : Nat :=
  (l.filter (fun a => lowercase a.severity == "warning")).length

/-- Number of members whose lowercased severity is critical. -/
def critCnt (l : List Alert) : Nat :=
  (l.filter (fun a => lowercase a.severity == "critical")).length

theorem countSeverities_append (l₁ l₂ : List Alert) (acc : Nat × Nat × Nat) :
    countSeverities (l₁ ++ l₂) acc =
      (countSeverities l₁ acc).bind (fun acc2 => countSeverities l₂ acc2) := by
  induction l₁ generalizing acc with
  | nil => simp [countSeverities, Except.bind]
  | cons a rest ih =>
    obtain ⟨o, w, c⟩ := acc
    simp only [List.cons_append, countSeverities]
    split_ifs <;> simp [ih, Except.bind]

theorem countSeverities_eq_of_known (l : List Alert) (o w c : Nat)
    (h : ∀ a ∈ l, knownSeverity a = true) :
    countSeverities l (o, w, c) = .ok (o + okCnt l, w + warnCnt l, c + critCnt l) := by
  induction l generalizing o w c with
  | nil => simp [countSeverities, okCnt, warnCnt, critCnt]
  | cons a rest ih =>
    have ha := h a (by simp)
    have hrest : ∀ b ∈ rest, knownSeverity b = true := fun b hb => h b (by simp [hb])
    unfold knownSeverity at ha
    simp only [Bool.or_eq_true, beq_iff_eq] at ha
    simp only [countSeverities]
    rcases ha with (h1 | h2) | h3
    · rw [if_pos h1, ih _ _ _ hrest]
      simp only [okCnt, warnCnt, critCnt, List.filter_cons, h1]
      simp only [Except.ok.injEq, Prod.mk.injEq]
      refine ⟨by simp; omega, by simp, by simp⟩
    · have h1 : ¬ lowercase a.severity = "ok" := by rw [h2]; decide
      rw [if_neg h1, if_pos h2, ih _ _ _ hrest]
      simp only [okCnt, warnCnt, critCnt, List.filter_cons, h2]
      simp only [Except.ok.injEq, Prod.mk.injEq]
      refine ⟨by simp, by simp; omega, by simp⟩
    · have h1 : ¬ lowercase a.severity = "ok" := by rw [h3]; decide
      have h2 : ¬ lowercase a.severity = "warning" := by rw [h3]; decide
      rw [if_neg h1, if_neg h2, if_pos h3, ih _ _ _ hrest]
      simp only [okCnt, warnCnt, critCnt, List.filter_cons, h3]
      simp only [Except.ok.injEq, Prod.mk.injEq]
      refine ⟨by simp, by simp, by simp; omega⟩

theorem known_of_countSeverities_ok (l : List Alert) (acc r : Nat × Nat × Nat)
    (h : countSeverities l acc = .ok r) : ∀ a ∈ l, knownSeverity a = true := by
  induction l generalizing acc with
  | nil => simp
  | cons a rest ih =>
    obtain ⟨o, w, c⟩ := acc
    simp only [countSeverities] at h
    intro b hb
    rcases List.mem_cons.mp hb with hb | hb
    · subst hb
      unfold knownSeverity
      simp only [Bool.or_eq_true, beq_iff_eq]
      split_ifs at h with h1 h2 h3
      · exact Or.inl (Or.inl h1)
      · exact Or.inl (Or.inr h2)
      · exact Or.inr h3
    · split_ifs at h with h1 h2 h3
      · exact ih _ h b hb
      · exact ih _ h b hb
      · exact ih _ h b hb

theorem classify_eq_of_counts (al : AlertResourceCollection) (h0 : ¬ al.count = 0)
    (o w c : Nat) (hcs : countSeverities al.members (0, 0, 0) = .ok (o, w, c)) :
    classify al = .ok ⟨
      if c > 0 then Status.CRITICAL else if w > 0 then Status.WARNING else Status.OK,
      String.intercalate ", "
        ((if c > 0 then [toString c ++ " critical alerts found"] else [])
          ++ (if w > 0 then [toString w ++ " warning alerts found"] else [])
          ++ [toString o ++ " harmless alerts found"])⟩ := by
  unfold classify
  rw [if_neg h0, hcs]

theorem counts_of_classify_ok (al : AlertResourceCollection) (h0 : ¬ al.count = 0)
    (st : NagiosState) (hok : classify al = .ok st) :
    countSeverities al.members (0, 0, 0) =
      .ok (okCnt al.members, warnCnt al.members, critCnt al.members) := by
  rcases hcs : countSeverities al.members (0, 0, 0) with e | r
  · exfalso
    unfold classify at hok
    rw [if_neg h0, hcs] at hok
    simp at hok
  · have hknown := known_of_countSeverities_ok al.members (0, 0, 0) r hcs
    have h2 := countSeverities_eq_of_known al.members 0 0 0 hknown
    rw [hcs] at h2
    rw [h2]
    simp

/-- C10 (confirmed): the empty-collection short circuit trusts the count
field, not the members sequence: any collection whose count field is 0
yields the verdict OK with message No uncleared alerts found, whatever the
members sequence holds, with no severity validation and no invariant
error. -/
theorem c10_count_zero_short_circuit (al : AlertResourceCollection)
    (h0 : al.count = 0) :
    classify al = .ok ⟨Status.OK, "No uncleared alerts found"⟩ := by
  simp [classify, h0]

/-- C10 witness: a collection with count 0 but a member of unknown severity
still yields the OK verdict. -/
theorem c10_count_zero_short_circuit_witness :
    classify ⟨0, [⟨"weird"⟩]⟩ = .ok ⟨Status.OK, "No uncleared alerts found"⟩ :=
  c10_count_zero_short_circuit ⟨0, [⟨"weird"⟩]⟩ rfl

/-- C1 counterexample: a collection whose members sequence is empty but
whose count field is 1 is classified by the counting path, returning the
verdict with message 0 harmless alerts found instead of No uncleared
alerts found. -/
theorem c1_empty_members_cex :
    classify ⟨1, []⟩ = .ok ⟨Status.OK, "0 harmless alerts found"⟩ ∧
      classify ⟨1, []⟩ ≠ .ok ⟨Status.OK, "No uncleared alerts found"⟩ := by
  decide

/-- C1 (corrected): the short circuit keys on the count field, not on the
members sequence. For a collection with empty members the verdict is OK
with message No uncleared alerts found when count = 0, and the counting
path message 0 harmless alerts found otherwise. -/
theorem c1_empty_members_amended (al : AlertResourceCollection)
    (hm : al.members = []) :
    classify al = .ok ⟨Status.OK,
      if al.count = 0 then "No uncleared alerts found"
      else "0 harmless alerts found"⟩ := by
  by_cases h0 : al.count = 0
  · simp [classify, h0]
  · have hcs : countSeverities al.members (0, 0, 0) = .ok (0, 0, 0) := by
      rw [hm]
      rfl
    rw [classify_eq_of_counts al h0 0 0 0 hcs, if_neg h0]
    rfl

/-- C1 witness: the amended claim at the well-formed empty collection. -/
theorem c1_empty_members_amended_witness :
    classify ⟨0, []⟩ = .ok ⟨Status.OK, "No uncleared alerts found"⟩ :=
  c1_empty_members_amended ⟨0, []⟩ rfl

/-- C2 counterexample: the collection with count 0 but one critical member
classifies without error to status OK through the short circuit, even
though its critical count is 1, so the unrestricted priority claim fails
there. -/
theorem c2_unrestricted_cex :
    classify ⟨0, [⟨"critical"⟩]⟩ = .ok ⟨Status.OK, "No uncleared alerts found"⟩ ∧
      (⟨Status.OK, "No uncleared alerts found"⟩ : NagiosState).status ≠
        (if 0 < critCnt [⟨"critical"⟩] then Status.CRITICAL
          else if 0 < warnCnt [⟨"critical"⟩] then Status.WARNING
          else Status.OK) := by
  decide

/-- C2 (corrected): for every collection that classifies without error, the
verdict status is OK when the count field is 0 (the short circuit, where
no counting occurs); otherwise it follows the strict priority over the
severity counts of the members: CRITICAL when the critical count is
positive, else WARNING when the warning count is positive, else OK. -/
theorem c2_status_priority_amended (al : AlertResourceCollection)
    (st : NagiosState) (hok : classify al = .ok st) :
    st.status =
      (if al.count = 0 then Status.OK
        else if 0 < critCnt al.members then Status.CRITICAL
        else if 0 < warnCnt al.members then Status.WARNING
        else Status.OK) := by
  by_cases h0 : al.count = 0
  · rw [classify, if_pos h0] at hok
    injection hok with hok
    subst hok
    rw [if_pos h0]
  · have hcs := counts_of_classify_ok al h0 st hok
    have heq := classify_eq_of_counts al h0 _ _ _ hcs
    rw [heq] at hok
    injection hok with hok
    subst hok
    rw [if_neg h0]

/-- C2 witness: the counting-path collection with count 5 and a single
critical member gives status CRITICAL. -/
theorem c2_status_priority_amended_witness :
    (⟨Status.CRITICAL, "1 critical alerts found, 0 harmless alerts found"⟩ :
        NagiosState).status =
      (if (5 : Nat) = 0 then Status.OK
        else if 0 < critCnt [⟨"critical"⟩] then Status.CRITICAL
        else if 0 < warnCnt [⟨"critical"⟩] then Status.WARNING
        else Status.OK) :=
  c2_status_priority_amended ⟨5, [⟨"critical"⟩]⟩
    ⟨Status.CRITICAL, "1 critical alerts found, 0 harmless alerts found"⟩
    (by decide)

/-- C3 (confirmed): on the counting path (count nonzero), a successful
verdict's message is the comma join, in fixed order, of the critical
clause only when the critical count is positive, then the warning clause
only when the warning count is positive, then always the harmless clause;
and the verdict is unchanged under any permutation of the members. -/
theorem c3_message_format (al : AlertResourceCollection) (st : NagiosState)
    (h0 : ¬ al.count = 0)
    (hok : classify al = .ok st) :
    st.message = String.intercalate ", "
      ((if 0 < critCnt al.members then
          [toString (critCnt al.members) ++ " critical alerts found"] else [])
        ++ (if 0 < warnCnt al.members then
          [toString (warnCnt al.members) ++ " warning alerts found"] else [])
        ++ [toString (okCnt al.members) ++ " harmless alerts found"])
    ∧ ∀ l', List.Perm l' al.members → classify ⟨al.count, l'⟩ = .ok st := by
  have hcs := counts_of_classify_ok al h0 st hok
  have heq := classify_eq_of_counts al h0 _ _ _ hcs
  rw [heq] at hok
  injection hok with hok
  subst hok
  constructor
  · rfl
  · intro l' hperm
    have hknown := known_of_countSeverities_ok al.members (0, 0, 0) _ hcs
    have hknown' : ∀ a ∈ l', knownSeverity a = true := fun a ha =>
      hknown a (hperm.mem_iff.mp ha)
    have hok' : okCnt l' = okCnt al.members := by
      unfold okCnt
      exact (hperm.filter _).length_eq
    have hwarn' : warnCnt l' = warnCnt al.members := by
      unfold warnCnt
      exact (hperm.filter _).length_eq
    have hcrit' : critCnt l' = critCnt al.members := by
      unfold critCnt
      exact (hperm.filter _).length_eq
    have hcs' : countSeverities l' (0, 0, 0) =
        .ok (okCnt al.members, warnCnt al.members, critCnt al.members) := by
      rw [countSeverities_eq_of_known l' 0 0 0 hknown', hok', hwarn', hcrit']
      simp
    have heq' := classify_eq_of_counts ⟨al.count, l'⟩ h0 _ _ _ hcs'
    rw [heq']

/-- C3 witness: the spec's worked example, members critical, ok, warning,
critical, ok with counts c 2, w 1, o 2. -/
theorem c3_message_format_witness :
    (⟨Status.CRITICAL,
        "2 critical alerts found, 1 warning alerts found, 2 harmless alerts found"⟩ :
        NagiosState).message = String.intercalate ", "
      ((if 0 < critCnt [⟨"critical"⟩, ⟨"ok"⟩, ⟨"warning"⟩, ⟨"critical"⟩, ⟨"ok"⟩] then
          [toString (critCnt [⟨"critical"⟩, ⟨"ok"⟩, ⟨"warning"⟩, ⟨"critical"⟩, ⟨"ok"⟩])
            ++ " critical alerts found"] else [])
        ++ (if 0 < warnCnt [⟨"critical"⟩, ⟨"ok"⟩, ⟨"warning"⟩, ⟨"critical"⟩, ⟨"ok"⟩] then
          [toString (warnCnt [⟨"critical"⟩, ⟨"ok"⟩, ⟨"warning"⟩, ⟨"critical"⟩, ⟨"ok"⟩])
            ++ " warning alerts found"] else [])
        ++ [toString (okCnt [⟨"critical"⟩, ⟨"ok"⟩, ⟨"warning"⟩, ⟨"critical"⟩, ⟨"ok"⟩])
            ++ " harmless alerts found"])
    ∧ ∀ l', List.Perm l' [⟨"critical"⟩, ⟨"ok"⟩, ⟨"warning"⟩, ⟨"critical"⟩, ⟨"ok"⟩] →
        classify ⟨5, l'⟩ = .ok ⟨Status.CRITICAL,
          "2 critical alerts found, 1 warning alerts found, 2 harmless alerts found"⟩ :=
  c3_message_format ⟨5, [⟨"critical"⟩, ⟨"ok"⟩, ⟨"warning"⟩, ⟨"critical"⟩, ⟨"ok"⟩]⟩
    ⟨Status.CRITICAL,
      "2 critical alerts found, 1 warning alerts found, 2 harmless alerts found"⟩
    (by decide) (by decide)

/-- C4 counterexample: an alert with severity weird makes classification
fail, but the error message is the source's BUG: Unknown alert severity
weird, not the message unknown alert severity: weird stated by the
claim. -/
theorem c4_unknown_severity_cex :
    classify ⟨1, [⟨"weird"⟩]⟩ = .error "BUG: Unknown alert severity weird" ∧
      classify ⟨1, [⟨"weird"⟩]⟩ ≠ .error "unknown alert severity: weird" := by
  decide

/-- C4 (corrected): on the counting path (count nonzero), the first alert
whose lowercased severity lies outside the closed set ok, warning,
critical makes classification fail with the error BUG: Unknown alert
severity followed by the original severity value; no verdict is produced
and the alert is not silently dropped. -/
theorem c4_unknown_severity_amended (n : Nat) (l₁ : List Alert) (a : Alert)
    (l₂ : List Alert) (hn : ¬ n = 0) (hbad : knownSeverity a = false)
    (hgood : ∀ b ∈ l₁, knownSeverity b = true) :
    classify ⟨n, l₁ ++ a :: l₂⟩ =
      .error ("BUG: Unknown alert severity " ++ a.severity) := by
  have hno1 : ¬ lowercase a.severity = "ok" := by
    intro hcontra
    unfold knownSeverity at hbad
    rw [hcontra] at hbad
    simp at hbad
  have hno2 : ¬ lowercase a.severity = "warning" := by
    intro hcontra
    unfold knownSeverity at hbad
    rw [hcontra] at hbad
    simp at hbad
  have hno3 : ¬ lowercase a.severity = "critical" := by
    intro hcontra
    unfold knownSeverity at hbad
    rw [hcontra] at hbad
    simp at hbad
  have h1 := countSeverities_eq_of_known l₁ 0 0 0 hgood
  have hstep : countSeverities (a :: l₂) (0 + okCnt l₁, 0 + warnCnt l₁, 0 + critCnt l₁) =
      .error ("BUG: Unknown alert severity " ++ a.severity) := by
    simp only [countSeverities]
    rw [if_neg hno1, if_neg hno2, if_neg hno3]
  have hall : countSeverities (l₁ ++ a :: l₂) (0, 0, 0) =
      .error ("BUG: Unknown alert severity " ++ a.severity) := by
    rw [countSeverities_append, h1]
    simp only [Except.bind]
    exact hstep
  unfold classify
  rw [if_neg hn]
  rw [hall]

/-- C4 witness: the amended claim at the single weird alert. -/
theorem c4_unknown_severity_amended_witness :
    classify ⟨1, [(⟨"weird"⟩ : Alert)]⟩ =
      .error ("BUG: Unknown alert severity " ++ "weird") :=
  c4_unknown_severity_amended 1 [] ⟨"weird"⟩ [] (by decide) (by decide) (by decide)

theorem countSeverities_cons_ok_congr (a a' : Alert) (l : List Alert)
    (acc r : Nat × Nat × Nat)
    (hsev : lowercase a.severity = lowercase a'.severity)
    (h : countSeverities (a :: l) acc = .ok r) :
    countSeverities (a' :: l) acc = .ok r := by
  obtain ⟨o, w, c⟩ := acc
  simp only [countSeverities] at h ⊢
  rw [← hsev]
  split_ifs at h ⊢ <;> exact h

/-- C5 (confirmed): severity matching is case-insensitive: replacing one
member by an alert whose severity string lowercases to the same value
leaves any successful verdict unchanged, status and message alike. -/
theorem c5_case_insensitive (n : Nat) (l₁ l₂ : List Alert) (a a' : Alert)
    (st : NagiosState)
    (hsev : lowercase a.severity = lowercase a'.severity)
    (hok : classify ⟨n, l₁ ++ a :: l₂⟩ = .ok st) :
    classify ⟨n, l₁ ++ a' :: l₂⟩ = .ok st := by
  by_cases h0 : n = 0
  · subst h0
    simp [classify] at hok ⊢
    exact hok
  · rcases hcs : countSeverities (l₁ ++ a :: l₂) (0, 0, 0) with e | r
    · exfalso
      unfold classify at hok
      rw [if_neg h0, hcs] at hok
      simp at hok
    · obtain ⟨o, w, c⟩ := r
      have hcs2 := hcs
      rw [countSeverities_append] at hcs2
      rcases h1 : countSeverities l₁ (0, 0, 0) with e1 | acc1
      · rw [h1] at hcs2
        simp [Except.bind] at hcs2
      · rw [h1] at hcs2
        simp only [Except.bind] at hcs2
        have hstep := countSeverities_cons_ok_congr a a' l₂ acc1 (o, w, c) hsev hcs2
        have hcs' : countSeverities (l₁ ++ a' :: l₂) (0, 0, 0) = .ok (o, w, c) := by
          rw [countSeverities_append, h1]
          simp only [Except.bind]
          exact hstep
        have heqA := classify_eq_of_counts ⟨n, l₁ ++ a :: l₂⟩ h0 o w c hcs
        have heqB := classify_eq_of_counts ⟨n, l₁ ++ a' :: l₂⟩ h0 o w c hcs'
        rw [heqA] at hok
        rw [heqB]
        exact hok

/-- C5 witness: CRITICAL replaced by Critical yields the same verdict. -/
theorem c5_case_insensitive_witness :
    classify ⟨1, [(⟨"Critical"⟩ : Alert)]⟩ =
      .ok ⟨Status.CRITICAL, "1 critical alerts found, 0 harmless alerts found"⟩ :=
  c5_case_insensitive 1 [] [] ⟨"CRITICAL"⟩ ⟨"Critical"⟩
    ⟨Status.CRITICAL, "1 critical alerts found, 0 harmless alerts found"⟩
    (by decide) (by decide)

/-- C6 counterexample: a login response with transport status 200 and no
session header fails with the source's message Login to HPE OneView
failed, not the message login failed stated by the claim. -/
theorem c6_missing_session_header_cex :
    login (.ok ⟨200, [], ""⟩) = .error "Login to HPE OneView failed" ∧
      login (.ok ⟨200, [], ""⟩) ≠ .error "login failed" := by
  decide

/-- C6 (corrected): a login response with a successful transport status but
no sessionID header makes the whole check fail with the authentication
error Login to HPE OneView failed, and the run issues no alert-fetch
call. -/
theorem c6_missing_session_header_amended (env : Env) (r : HttpResponse)
    (hresp : env.loginResp = .ok r) (_hga : 200 ≤ r.status) (_hgb : r.status < 300)
    (hhdr : headerGet r.headers "sessionID" = none) :
    check_alerts env = (.error "Login to HPE OneView failed", [Action.loginCall])
      ∧ Action.getAlertsCall ∉ (check_alerts env).2 := by
  have hlog : login env.loginResp = .error "Login to HPE OneView failed" := by
    rw [hresp]
    simp [login, hhdr]
  have hca : check_alerts env =
      (.error "Login to HPE OneView failed", [Action.loginCall]) := by
    unfold check_alerts
    rw [hlog]
  refine ⟨hca, ?_⟩
  rw [hca]
  decide

/-- C6 witness: a concrete 200 response without the session header. -/
theorem c6_missing_session_header_amended_witness :
    check_alerts ⟨.ok ⟨200, [], ""⟩, .ok ⟨200, [], ""⟩, .ok ⟨200, [], ""⟩,
        fun _ => .error "parse failure"⟩ =
      (.error "Login to HPE OneView failed", [Action.loginCall])
    ∧ Action.getAlertsCall ∉ (check_alerts ⟨.ok ⟨200, [], ""⟩, .ok ⟨200, [], ""⟩,
        .ok ⟨200, [], ""⟩, fun _ => .error "parse failure"⟩).2 :=
  c6_missing_session_header_amended
    ⟨.ok ⟨200, [], ""⟩, .ok ⟨200, [], ""⟩, .ok ⟨200, [], ""⟩,
      fun _ => .error "parse failure"⟩
    ⟨200, [], ""⟩ rfl (by decide) (by decide) rfl

/-- C7 (confirmed): the verdict of a successful run does not depend on the
outcome of the logout call: replacing the logout outcome by any other,
success or failure, leaves the returned verdict unchanged. -/
theorem c7_logout_failure_suppressed (env : Env) (r' : Except String HttpResponse)
    (st : NagiosState) (hok : (check_alerts env).1 = .ok st) :
    (check_alerts (setLogoutResp env r')).1 = .ok st := by
  have hsame : check_alerts (setLogoutResp env r') = check_alerts env := rfl
  rw [hsame]
  exact hok

/-- C7 witness: a successful run whose logout transport fails returns the
same WARNING verdict. -/
theorem c7_logout_failure_suppressed_witness :
    (check_alerts (setLogoutResp
        ⟨.ok ⟨200, [("sessionID", "tok")], ""⟩, .ok ⟨200, [], ""⟩, .ok ⟨200, [], ""⟩,
          fun _ => .ok ⟨1, [⟨"warning"⟩]⟩⟩
        (.error "logout transport failure"))).1 =
      .ok ⟨Status.WARNING, "1 warning alerts found, 0 harmless alerts found"⟩ :=
  c7_logout_failure_suppressed
    ⟨.ok ⟨200, [("sessionID", "tok")], ""⟩, .ok ⟨200, [], ""⟩, .ok ⟨200, [], ""⟩,
      fun _ => .ok ⟨1, [⟨"warning"⟩]⟩⟩
    (.error "logout transport failure")
    ⟨Status.WARNING, "1 warning alerts found, 0 harmless alerts found"⟩
    (by decide)

/-- C8 (code bug): in a run that obtains a session token and then fetches a
collection with count 0, check_alerts returns from the short circuit
without ever attempting the logout call, leaking the session; the trace
ends after the alert fetch and contains no logout action. -/
theorem c8_short_circuit_skips_logout :
    check_alerts ⟨.ok ⟨200, [("sessionID", "tok")], ""⟩, .ok ⟨200, [], ""⟩,
        .ok ⟨200, [], ""⟩, fun _ => .ok ⟨0, []⟩⟩ =
      (.ok ⟨Status.OK, "No uncleared alerts found"⟩,
        [Action.loginCall, Action.getAlertsCall]) ∧
      Action.logoutCall ∉ (check_alerts ⟨.ok ⟨200, [("sessionID", "tok")], ""⟩,
        .ok ⟨200, [], ""⟩, .ok ⟨200, [], ""⟩, fun _ => .ok ⟨0, []⟩⟩).2 := by
  decide

/-- C9 counterexample: a fetch response with the success status 201 is not
parsed; get_alerts fails with the canonical reason Created even though 201
is a success status and the parse function would have succeeded. -/
theorem c9_success_status_cex :
    get_alerts (fun _ => .ok ⟨0, []⟩) (.ok ⟨201, [], ""⟩) = .error "Created" ∧
      get_alerts (fun _ => .ok ⟨0, []⟩) (.ok ⟨201, [], ""⟩) ≠ .ok ⟨0, []⟩ := by
  decide

/-- C9 (corrected): get_alerts fails on every response status other than
exactly 200 OK, not merely on non-success statuses, with the canonical
description of the status when one exists and the literal unknown HTTP
status otherwise; only for status 200 does it parse the body. -/
theorem c9_status_check_amended
    (parse : String → Except String AlertResourceCollection) (r : HttpResponse) :
    (¬ r.status = 200 → get_alerts parse (.ok r) =
      .error ((canonical_reason r.status).getD "unknown HTTP status"))
    ∧ (r.status = 200 → get_alerts parse (.ok r) = parse r.body) := by
  constructor
  · intro h
    simp [get_alerts, h]
  · intro h
    simp [get_alerts, h]

/-- C9 witness: a 404 response yields the canonical reason Not Found. -/
theorem c9_status_check_amended_witness :
    get_alerts (fun _ => .ok ⟨0, []⟩) (.ok ⟨404, [], ""⟩) =
      .error ((canonical_reason 404).getD "unknown HTTP status") :=
  (c9_status_check_amended (fun _ => .ok ⟨0, []⟩) ⟨404, [], ""⟩).1 (by decide)

end HpeOneview
